import Mathlib

/-!
Verification of the image-to-PDF generator in src/src/main.ts.

The core of the program is the function generatePDF: it decodes the first
image to pick the initial document orientation, creates a jsPDF document
(A4, points), then loops over all images in order, appending a page per
image after the first, and drawing each image in a fitted, centered box.
We embed the relevant parts of the program as pure Lean functions:

  - pixel dimensions are natural numbers; page geometry is exact rational
    arithmetic (the source uses JS doubles, but every formula involved is
    a field expression, so the rational model is the intended semantics);
  - the asynchronous loadImage is a function decode from data URLs to
    Option Image: none models a decode failure (the promise rejecting);
  - the jsPDF document is a list of finalized pages plus the current page;
    addPage and addImage mirror the jsPDF calls made by the source;
  - generation that throws (a rejected promise) is Option.none: doc.save
    is only reached on the some path.
-/

/-- Pixel dimensions of a decoded image, as resolved by loadImage
(img.width and img.height in the source). -/
structure Image where
  width : Nat
  height : Nat
deriving DecidableEq, Repr

/-- Source line 161 / 170: an image is treated as landscape when
img.width > img.height. -/
def imgLandscape (img : Image) : Bool :=
  img.height < img.width

/-- A4 sheet width in points at portrait orientation (jsPDF value 595.28). -/
def a4W : ℚ := 59528 / 100

/-- A4 sheet height in points at portrait orientation (jsPDF value 841.89). -/
def a4H : ℚ := 84189 / 100

/-- Usable page width and height for the fixed A4 format at the given
orientation, as returned by doc.internal.pageSize.getWidth and getHeight
(source lines 179 and 180): landscape swaps the sheet sides. -/
def pageDims (landscape : Bool) : ℚ × ℚ :=
  if landscape then (a4H, a4W) else (a4W, a4H)

/-- The drawn bounding box of an image on a page, in the order the source
passes it to doc.addImage (line 202): x offset, y offset, width, height. -/
structure Box where
  drawX : ℚ
  drawY : ℚ
  drawW : ℚ
  drawH : ℚ
deriving DecidableEq, Repr

/-- Source lines 188 to 193, the branch taken when imgRatio > pageRatio:
drawW = pageW, drawH = pageW / imgRatio, drawX = 0,
drawY = (pageH - drawH) / 2. -/
def fitToWidth (imgRatio pageW pageH : ℚ) : Box :=
  { drawX := 0
    drawY := (pageH - pageW / imgRatio) / 2
    drawW := pageW
    drawH := pageW / imgRatio }

/-- Source lines 194 to 200, the branch taken otherwise:
drawH = pageH, drawW = pageH * imgRatio, drawX = (pageW - drawW) / 2,
drawY = 0. -/
def fitToHeight (imgRatio pageW pageH : ℚ) : Box :=
  { drawX := (pageW - pageH * imgRatio) / 2
    drawY := 0
    drawW := pageH * imgRatio
    drawH := pageH }

/-- Source lines 183 to 200: imgRatio = img.width / img.height,
pageRatio = pageW / pageH, then branch on imgRatio > pageRatio. -/
def layoutBox (imgW imgH pageW pageH : ℚ) : Box :=
  let imgRatio := imgW / imgH
  let pageRatio := pageW / pageH
  if imgRatio > pageRatio then fitToWidth imgRatio pageW pageH
  else fitToHeight imgRatio pageW pageH

/-- Modelled from the words of spec section 4.2, step 2: the fitted
bounding box the specification prescribes for given image and page
dimensions. Kept separate from layoutBox (which is translated from the
source) so the two can be compared. -/
def layoutSpec (imgW imgH pageW pageH : ℚ) : Box :=
  let imgRatio := imgW / imgH
  let pageRatio := pageW / pageH
  if imgRatio > pageRatio then
    { drawX := 0
      drawY := (pageH - pageW / imgRatio) / 2
      drawW := pageW
      drawH := pageW / imgRatio }
  else
    { drawX := (pageW - pageH * imgRatio) / 2
      drawY := 0
      drawW := pageH * imgRatio
      drawH := pageH }

/-- One page of the jsPDF document: its orientation and the boxes drawn
on it by doc.addImage, in drawing order. -/
structure PdfPage where
  landscape : Bool
  drawn : List Box
deriving DecidableEq, Repr

/-- The jsPDF document state: pages already left behind by addPage, and
the current page that addImage writes to. -/
structure Doc where
  done : List PdfPage
  current : PdfPage
deriving DecidableEq, Repr

/-- Constructor call on source lines 162 to 166: a fresh document holding
one empty page at the given orientation. -/
def Doc.init (landscape : Bool) : Doc :=
  { done := [], current := { landscape := landscape, drawn := [] } }

/-- doc.addPage on source line 173: finalize the current page and start a
new empty page at the given orientation. -/
def Doc.addPage (d : Doc) (landscape : Bool) : Doc :=
  { done := d.done ++ [d.current]
    current := { landscape := landscape, drawn := [] } }

/-- doc.addImage on source line 202: draw a box onto the current page. -/
def Doc.addImage (d : Doc) (b : Box) : Doc :=
  { done := d.done
    current := { landscape := d.current.landscape
                 drawn := d.current.drawn ++ [b] } }

/-- All pages of the document in final order, the current page last. -/
def Doc.pages (d : Doc) : List PdfPage :=
  d.done ++ [d.current]

/-- Loop body of generatePDF, source lines 169 to 202, for loop index i.
For i > 0 a new page is appended at the image's own orientation; for
i = 0 the source has an empty branch guarded by
landscape !== imgLandscape, kept here verbatim as an if with identical
arms. Page dimensions are then queried from the document and the fitted
box is drawn onto the current page. -/
def loopBody (firstLandscape : Bool) (i : Nat) (d : Doc) (img : Image) : Doc :=
  let il := imgLandscape img
  let d1 := if 0 < i then d.addPage il
            else if firstLandscape ≠ il then d else d
  let pW := (pageDims d1.current.landscape).1
  let pH := (pageDims d1.current.landscape).2
  d1.addImage (layoutBox (img.width : ℚ) (img.height : ℚ) pW pH)

/-- One stored image entry (the ImageEntry interface of the source):
the unique id, the file name, and the data URL the image decodes from. -/
structure ImageEntry where
  id : String
  fileName : String
  dataUrl : String
deriving DecidableEq, Repr

/-- The for loop of generatePDF, source lines 168 to 203, processing the
remaining entries starting at loop index i: each entry is decoded with
loadImage (none aborts the whole generation, the promise rejection
propagating out of the async function) and then placed by loopBody. -/
def genLoop (decode : String → Option Image) (firstLandscape : Bool)
    (d : Doc) (i : Nat) : List ImageEntry → Option Doc
  | [] => some d
  | e :: rest =>
    match decode e.dataUrl with
    | none => none
    | some img => genLoop decode firstLandscape (loopBody firstLandscape i d img) (i + 1) rest

/-- generatePDF, source lines 158 to 206: decode the first image, pick the
initial orientation from it, create the document, run the loop over all
entries, and save. A none result means the generation failed (or, for an
empty list, that reading images[0].dataUrl threw): doc.save on line 205
is reached exactly on the some path, so none is a run that produces no
document. -/
def generatePDF (decode : String → Option Image) (entries : List ImageEntry) : Option Doc :=
  match entries with
  | [] => none
  | e0 :: rest =>
    match decode e0.dataUrl with
    | none => none
    | some firstImg =>
      let landscape := imgLandscape firstImg
      genLoop decode landscape (Doc.init landscape) 0 (e0 :: rest)

/-- The page that image img ends up contributing to the document: its own
orientation per the width > height rule, with exactly the one fitted box
drawn on it. -/
def expectedPage (img : Image) : PdfPage :=
  let l := imgLandscape img
  { landscape := l
    drawn := [layoutBox (img.width : ℚ) (img.height : ℚ) (pageDims l).1 (pageDims l).2] }

/-- Observable UI state relevant to removeImage and the generate handler:
the images array (source line 10) and the ids of the rendered .image-item
elements in DOM order. -/
structure UIState where
  images : List ImageEntry
  rendered : List String
deriving DecidableEq, Repr

/-- removeImage, source lines 125 to 135: find the entry by id; if absent
return with no change; otherwise splice it out of the array and remove
the first rendered element carrying that data-id. -/
def removeImage (st : UIState) (id : String) : UIState :=
  match st.images.findIdx? (fun e => e.id == id) with
  | none => st
  | some idx =>
    { images := st.images.eraseIdx idx
      rendered := st.rendered.eraseP (fun r => r == id) }

/-- The generate button click handler, source lines 55 to 68: an empty
images array returns immediately; otherwise generatePDF runs on the
current snapshot. The disabled flag and label are restored in the
finally block, so the state component is returned unchanged either way. -/
def clickGenerate (decode : String → Option Image) (st : UIState) :
    UIState × Option Doc :=
  if st.images.length = 0 then (st, none)
  else (st, generatePDF decode st.images)

/-- Variant of loopBody with the empty i = 0 branch of source lines 174
to 177 removed, used to show that branch is dead. -/
def loopBodyNoAdjust (_firstLandscape : Bool) (i : Nat) (d : Doc) (img : Image) : Doc :=
  let il := imgLandscape img
  let d1 := if 0 < i then d.addPage il else d
  let pW := (pageDims d1.current.landscape).1
  let pH := (pageDims d1.current.landscape).2
  d1.addImage (layoutBox (img.width : ℚ) (img.height : ℚ) pW pH)

/-- The generatePDF loop built on loopBodyNoAdjust. -/
def genLoopNoAdjust (decode : String → Option Image) (firstLandscape : Bool)
    (d : Doc) (i : Nat) : List ImageEntry → Option Doc
  | [] => some d
  | e :: rest =>
    match decode e.dataUrl with
    | none => none
    | some img =>
      genLoopNoAdjust decode firstLandscape (loopBodyNoAdjust firstLandscape i d img) (i + 1) rest

/-- generatePDF with the dead branch removed. -/
def generatePDFNoAdjust (decode : String → Option Image) (entries : List ImageEntry) : Option Doc :=
  match entries with
  | [] => none
  | e0 :: rest =>
    match decode e0.dataUrl with
    | none => none
    | some firstImg =>
      let landscape := imgLandscape firstImg
      genLoopNoAdjust decode landscape (Doc.init landscape) 0 (e0 :: rest)

/-- Instrumented loop: additionally records whether the guard of the
empty branch (i = 0 together with landscape !== imgLandscape) was ever
true during the run. -/
def genLoopProbe (decode : String → Option Image) (firstLandscape : Bool)
    (d : Doc) (fired : Bool) (i : Nat) : List ImageEntry → Option (Doc × Bool)
  | [] => some (d, fired)
  | e :: rest =>
    match decode e.dataUrl with
    | none => none
    | some img =>
      let hit := !(decide (0 < i)) && decide (firstLandscape ≠ imgLandscape img)
      genLoopProbe decode firstLandscape (loopBody firstLandscape i d img)
        (fired || hit) (i + 1) rest

/-- generatePDF instrumented with the dead-branch guard probe. -/
def generatePDFProbe (decode : String → Option Image) (entries : List ImageEntry) :
    Option (Doc × Bool) :=
  match entries with
  | [] => none
  | e0 :: rest =>
    match decode e0.dataUrl with
    | none => none
    | some firstImg =>
      let landscape := imgLandscape firstImg
      genLoopProbe decode landscape (Doc.init landscape) false 0 (e0 :: rest)

/-! ## Structural lemmas about the generation loop -/

lemma loopBody_pos (fl : Bool) (i : Nat) (d : Doc) (img : Image) (hi : 0 < i) :
    loopBody fl i d img =
      { done := d.done ++ [d.current], current := expectedPage img } := by
  simp [loopBody, hi, Doc.addPage, Doc.addImage, expectedPage]

lemma loopBody_zero_init (img : Image) :
    loopBody (imgLandscape img) 0 (Doc.init (imgLandscape img)) img =
      { done := [], current := expectedPage img } := by
  simp [loopBody, Doc.init, Doc.addImage, expectedPage]

lemma genLoop_map_pages (decode : String → Option Image) (fl : Bool) :
    ∀ (entries : List ImageEntry) (imgs : List Image) (d : Doc) (i : Nat),
      0 < i →
      entries.map (fun e => decode e.dataUrl) = imgs.map some →
      (genLoop decode fl d i entries).map Doc.pages =
        some (d.pages ++ imgs.map expectedPage) := by
  intro entries
  induction entries with
  | nil =>
    intro imgs d i hi hmap
    have himgs : imgs = [] := by
      cases imgs with
      | nil => rfl
      | cons a as => simp at hmap
    subst himgs
    simp [genLoop]
  | cons e rest ih =>
    intro imgs d i hi hmap
    cases imgs with
    | nil => simp at hmap
    | cons img is =>
      simp only [List.map_cons, List.cons.injEq] at hmap
      obtain ⟨hdec, hrest⟩ := hmap
      simp only [genLoop, hdec]
      rw [loopBody_pos fl i d img hi]
      rw [ih is _ (i + 1) (Nat.succ_pos i) hrest]
      simp [Doc.pages, List.append_assoc]

lemma generatePDF_pages (decode : String → Option Image)
    (entries : List ImageEntry) (imgs : List Image)
    (hne : entries ≠ [])
    (hmap : entries.map (fun e => decode e.dataUrl) = imgs.map some) :
    (generatePDF decode entries).map Doc.pages = some (imgs.map expectedPage) := by
  cases entries with
  | nil => exact absurd rfl hne
  | cons e0 rest =>
    cases imgs with
    | nil => simp at hmap
    | cons img0 is =>
      simp only [List.map_cons, List.cons.injEq] at hmap
      obtain ⟨hdec, hrest⟩ := hmap
      simp only [generatePDF, genLoop, hdec]
      rw [loopBody_zero_init img0]
      rw [genLoop_map_pages decode (imgLandscape img0) rest is _ 1 Nat.one_pos hrest]
      simp [Doc.pages]

lemma genLoop_none (decode : String → Option Image) (fl : Bool) :
    ∀ (entries : List ImageEntry) (d : Doc) (i : Nat) (e : ImageEntry),
      e ∈ entries → decode e.dataUrl = none →
      genLoop decode fl d i entries = none := by
  intro entries
  induction entries with
  | nil => intro d i e he; exact absurd he (List.not_mem_nil e)
  | cons a rest ih =>
    intro d i e he hdec
    rcases List.mem_cons.mp he with h | h
    · subst h
      simp only [genLoop, hdec]
    · cases hda : decode a.dataUrl with
      | none => simp only [genLoop, hda]
      | some img =>
        simp only [genLoop, hda]
        exact ih _ _ e h hdec

/-! ## Claim theorems -/

/-- C1: for every non-empty input sequence whose images all decode, one
generatePDF call succeeds and yields exactly one page per input image in
input order; the page of each image carries exactly its one fitted box
(the first on the page created at document initialization, each later one
on the single page appended for it), and the page count equals the number
of entries. -/
theorem generatePDF_one_page_per_image
    (decode : String → Option Image) (entries : List ImageEntry) (imgs : List Image)
    (hne : entries ≠ [])
    (hmap : entries.map (fun e => decode e.dataUrl) = imgs.map some) :
    (generatePDF decode entries).map Doc.pages = some (imgs.map expectedPage) ∧
    (imgs.map expectedPage).length = entries.length := by
  refine ⟨generatePDF_pages decode entries imgs hne hmap, ?_⟩
  have hlen := congrArg List.length hmap
  simp only [List.length_map] at hlen
  simp [hlen]

/-- Witness for C1 at a concrete two-image run. -/
theorem generatePDF_one_page_per_image_witness :
    (generatePDF
        (fun s => if s = "u1" then some ⟨800, 600⟩
                  else if s = "u2" then some ⟨400, 600⟩ else none)
        [⟨"i1", "a.jpg", "u1"⟩, ⟨"i2", "b.png", "u2"⟩]).map Doc.pages =
      some ([⟨800, 600⟩, ⟨400, 600⟩].map expectedPage) ∧
    (([⟨800, 600⟩, (⟨400, 600⟩ : Image)]).map expectedPage).length =
      ([⟨"i1", "a.jpg", "u1"⟩, (⟨"i2", "b.png", "u2"⟩ : ImageEntry)]).length :=
  generatePDF_one_page_per_image _ _ [⟨800, 600⟩, ⟨400, 600⟩]
    (by decide) (by decide)

/-- C2: the fitted box follows the spec formulas exactly: when
imgRatio > pageRatio, fit to width with vertical centering; otherwise fit
to height with horizontal centering. -/
theorem layoutBox_branch_formulas (imgW imgH pageW pageH : ℚ) :
    (imgW / imgH > pageW / pageH →
      layoutBox imgW imgH pageW pageH =
        { drawX := 0
          drawY := (pageH - pageW / (imgW / imgH)) / 2
          drawW := pageW
          drawH := pageW / (imgW / imgH) }) ∧
    (¬ imgW / imgH > pageW / pageH →
      layoutBox imgW imgH pageW pageH =
        { drawX := (pageW - pageH * (imgW / imgH)) / 2
          drawY := 0
          drawW := pageH * (imgW / imgH)
          drawH := pageH }) := by
  constructor <;> intro h <;> simp [layoutBox, fitToWidth, fitToHeight, h]

/-- Witness for C2, exercising both branches at concrete ratios. -/
theorem layoutBox_branch_formulas_witness :
    layoutBox 4 2 6 6 =
      { drawX := 0, drawY := (6 - 6 / ((4 : ℚ) / 2)) / 2,
        drawW := 6, drawH := 6 / ((4 : ℚ) / 2) } ∧
    layoutBox 2 4 6 6 =
      { drawX := (6 - 6 * ((2 : ℚ) / 4)) / 2, drawY := 0,
        drawW := 6 * ((2 : ℚ) / 4), drawH := 6 } :=
  ⟨(layoutBox_branch_formulas 4 2 6 6).1 (by norm_num),
   (layoutBox_branch_formulas 2 4 6 6).2 (by norm_num)⟩

/-- C3: in a successful run, the orientation of every page equals the
width > height test of its own image, so a page orientation never depends
on the first page; moreover the landscape flag of an image holds exactly
when its width exceeds its height. -/
theorem generatePDF_orientation_per_image
    (decode : String → Option Image) (entries : List ImageEntry) (imgs : List Image)
    (hne : entries ≠ [])
    (hmap : entries.map (fun e => decode e.dataUrl) = imgs.map some) :
    (generatePDF decode entries).map (fun d => d.pages.map PdfPage.landscape) =
      some (imgs.map imgLandscape) ∧
    (∀ img : Image, imgLandscape img = true ↔ img.height < img.width) := by
  constructor
  · have h := generatePDF_pages decode entries imgs hne hmap
    cases hgen : generatePDF decode entries with
    | none => rw [hgen] at h; simp at h
    | some d =>
      rw [hgen] at h
      have hp : d.pages = imgs.map expectedPage := by
        simpa using h
      simp [hp, expectedPage, Function.comp]
  · intro img
    simp [imgLandscape]

/-- Witness for C3 at a concrete two-image run with mixed orientations. -/
theorem generatePDF_orientation_per_image_witness :
    (generatePDF
        (fun s => if s = "u1" then some ⟨400, 600⟩
                  else if s = "u2" then some ⟨1200, 800⟩ else none)
        [⟨"i1", "a.jpg", "u1"⟩, ⟨"i2", "b.png", "u2"⟩]).map
        (fun d => d.pages.map PdfPage.landscape) =
      some ([⟨400, 600⟩, ⟨1200, 800⟩].map imgLandscape) ∧
    (∀ img : Image, imgLandscape img = true ↔ img.height < img.width) :=
  generatePDF_orientation_per_image _ _ [⟨400, 600⟩, ⟨1200, 800⟩]
    (by decide) (by decide)

/-- C4: for positive image and page dimensions the fitted box never
overflows the page, its offsets are nonnegative, and it is centered on
the non-fitted axis. In the rational model the bounds hold exactly, which
is stronger than the floating-point tolerance the claim allows. -/
theorem layoutBox_within_page (imgW imgH pageW pageH : ℚ)
    (hw : 0 < imgW) (hh : 0 < imgH) (hpw : 0 < pageW) (hph : 0 < pageH) :
    0 ≤ (layoutBox imgW imgH pageW pageH).drawX ∧
    0 ≤ (layoutBox imgW imgH pageW pageH).drawY ∧
    (layoutBox imgW imgH pageW pageH).drawX +
      (layoutBox imgW imgH pageW pageH).drawW ≤ pageW ∧
    (layoutBox imgW imgH pageW pageH).drawY +
      (layoutBox imgW imgH pageW pageH).drawH ≤ pageH ∧
    ((layoutBox imgW imgH pageW pageH).drawX =
        (pageW - (layoutBox imgW imgH pageW pageH).drawW) / 2 ∨
      (layoutBox imgW imgH pageW pageH).drawY =
        (pageH - (layoutBox imgW imgH pageW pageH).drawH) / 2) := by
  have hr : 0 < imgW / imgH := div_pos hw hh
  rw [layoutBox]
  by_cases hcase : imgW / imgH > pageW / pageH
  · rw [if_pos hcase]
    simp only [fitToWidth]
    have hlt : pageW < imgW / imgH * pageH := (div_lt_iff₀ hph).mp hcase
    have hdh : pageW / (imgW / imgH) < pageH := (div_lt_iff₀ hr).mpr (by linarith)
    have hdh0 : 0 < pageW / (imgW / imgH) := div_pos hpw hr
    refine ⟨le_refl 0, by linarith, by linarith, by linarith, Or.inr ?_⟩
    norm_num
  · rw [if_neg hcase]
    simp only [fitToHeight]
    push_neg at hcase
    have hdw : pageH * (imgW / imgH) ≤ pageW := by
      have h1 : pageH * (imgW / imgH) ≤ pageH * (pageW / pageH) :=
        mul_le_mul_of_nonneg_left hcase (le_of_lt hph)
      have h2 : pageH * (pageW / pageH) = pageW :=
        mul_div_cancel₀ pageW (ne_of_gt hph)
      linarith
    have hdw0 : 0 < pageH * (imgW / imgH) := mul_pos hph hr
    exact ⟨by linarith, le_refl 0, by linarith, by linarith, Or.inl (by norm_num)⟩

/-- Witness for C4 at a concrete wide image on a portrait A4 page. -/
theorem layoutBox_within_page_witness :
    0 ≤ (layoutBox 800 600 a4W a4H).drawX ∧
    0 ≤ (layoutBox 800 600 a4W a4H).drawY ∧
    (layoutBox 800 600 a4W a4H).drawX + (layoutBox 800 600 a4W a4H).drawW ≤ a4W ∧
    (layoutBox 800 600 a4W a4H).drawY + (layoutBox 800 600 a4W a4H).drawH ≤ a4H ∧
    ((layoutBox 800 600 a4W a4H).drawX = (a4W - (layoutBox 800 600 a4W a4H).drawW) / 2 ∨
      (layoutBox 800 600 a4W a4H).drawY = (a4H - (layoutBox 800 600 a4W a4H).drawH) / 2) :=
  layoutBox_within_page 800 600 a4W a4H (by norm_num) (by norm_num)
    (by norm_num [a4W]) (by norm_num [a4H])

/-- C5: if any image of the input sequence fails to decode, the whole
generation fails: generatePDF returns none, so doc.save is never reached
and no document, partial or otherwise, is produced. -/
theorem generatePDF_decode_failure_aborts
    (decode : String → Option Image) (entries : List ImageEntry)
    (e : ImageEntry) (he : e ∈ entries) (hdec : decode e.dataUrl = none) :
    generatePDF decode entries = none := by
  cases entries with
  | nil => rfl
  | cons e0 rest =>
    cases hd0 : decode e0.dataUrl with
    | none => simp [generatePDF, hd0]
    | some firstImg =>
      simp only [generatePDF, hd0]
      exact genLoop_none decode (imgLandscape firstImg) (e0 :: rest)
        (Doc.init (imgLandscape firstImg)) 0 e he hdec

/-- Witness for C5: in a three-image batch whose second image fails to
decode, no document is produced. -/
theorem generatePDF_decode_failure_aborts_witness :
    generatePDF
      (fun s => if s = "u2" then none else some ⟨100, 200⟩)
      [⟨"i1", "a.jpg", "u1"⟩, ⟨"i2", "b.jpg", "u2"⟩, ⟨"i3", "c.jpg", "u3"⟩] = none :=
  generatePDF_decode_failure_aborts _ _ ⟨"i2", "b.jpg", "u2"⟩ (by decide) (by decide)

/-- C6: when imgRatio equals pageRatio the code takes the else branch,
and on these inputs fit-to-height and fit-to-width coincide: both give
the full-page box with zero offsets. -/
theorem layoutBox_tie_break (imgW imgH pageW pageH : ℚ)
    (heq : imgW / imgH = pageW / pageH) (hpw : 0 < pageW) (hph : 0 < pageH) :
    ¬ imgW / imgH > pageW / pageH ∧
    layoutBox imgW imgH pageW pageH = fitToHeight (imgW / imgH) pageW pageH ∧
    fitToHeight (imgW / imgH) pageW pageH = fitToWidth (imgW / imgH) pageW pageH ∧
    layoutBox imgW imgH pageW pageH =
      { drawX := 0, drawY := 0, drawW := pageW, drawH := pageH } := by
  have hnot : ¬ imgW / imgH > pageW / pageH := by rw [heq]; exact lt_irrefl _
  have hW : pageH * (imgW / imgH) = pageW := by
    rw [heq]; exact mul_div_cancel₀ pageW (ne_of_gt hph)
  have hH : pageW / (imgW / imgH) = pageH := by
    have h1 : pageW ≠ 0 := ne_of_gt hpw
    have h2 : pageH ≠ 0 := ne_of_gt hph
    rw [heq]
    field_simp
  refine ⟨hnot, by rw [layoutBox, if_neg hnot], ?_, ?_⟩
  · rw [fitToHeight, fitToWidth, hW, hH]
    simp
  · rw [layoutBox, if_neg hnot, fitToHeight, hW]
    simp

/-- Witness for C6 at a concrete equal-ratio input. -/
theorem layoutBox_tie_break_witness :
    ¬ (2 : ℚ) / 3 > (4 : ℚ) / 6 ∧
    layoutBox 2 3 4 6 = fitToHeight ((2 : ℚ) / 3) 4 6 ∧
    fitToHeight ((2 : ℚ) / 3) 4 6 = fitToWidth ((2 : ℚ) / 3) 4 6 ∧
    layoutBox 2 3 4 6 = { drawX := 0, drawY := 0, drawW := 4, drawH := 6 } :=
  layoutBox_tie_break 2 3 4 6 (by norm_num) (by norm_num) (by norm_num)

/-- C7: a click on the generate button with an empty image list is a
no-op: the state is returned unchanged and no document is produced, for
every possible decode function, so no image is ever loaded and no layout
is computed. -/
theorem clickGenerate_empty_noop (st : UIState) (h : st.images = [])
    (decode : String → Option Image) :
    clickGenerate decode st = (st, none) := by
  simp [clickGenerate, h]

/-- Witness for C7 at a concrete empty state. -/
theorem clickGenerate_empty_noop_witness :
    clickGenerate (fun _ => none) ⟨[], []⟩ = (⟨[], []⟩, none) :=
  clickGenerate_empty_noop ⟨[], []⟩ rfl (fun _ => none)

/-- C8 counterexample: for the square 100 by 100 image the page is
portrait A4, but imgRatio = 1 exceeds the portrait page ratio, so the
code takes the fit-to-width branch, not the fit-to-height/tie-break
branch the claim names: the computed box differs from the fit-to-height
result (which would even overflow the page horizontally). -/
theorem square_fit_to_height_counterexample :
    imgLandscape ⟨100, 100⟩ = false ∧
    (100 : ℚ) / 100 > a4W / a4H ∧
    layoutBox 100 100 a4W a4H ≠ fitToHeight ((100 : ℚ) / 100) a4W a4H := by
  refine ⟨rfl, by norm_num [a4W, a4H], ?_⟩
  intro h
  have hx := congrArg Box.drawX h
  norm_num [layoutBox, fitToWidth, fitToHeight, a4W, a4H] at hx

/-- C8 amended: every square image with positive side gets a portrait A4
page, whose ratio is below one, the layout takes the fit-to-width branch
since imgRatio = 1 exceeds the page ratio, and the drawn box satisfies
drawW = pageW (so drawW = pageW or drawH = pageH holds). -/
theorem square_image_layout (w : Nat) (hw : 0 < w) :
    imgLandscape ⟨w, w⟩ = false ∧
    pageDims (imgLandscape ⟨w, w⟩) = (a4W, a4H) ∧
    a4W / a4H < 1 ∧
    (w : ℚ) / (w : ℚ) > a4W / a4H ∧
    (layoutBox (w : ℚ) (w : ℚ) a4W a4H).drawW = a4W := by
  have hw0 : (w : ℚ) ≠ 0 := Nat.cast_ne_zero.mpr (Nat.pos_iff_ne_zero.mp hw)
  have hone : (w : ℚ) / (w : ℚ) = 1 := div_self hw0
  have hlt : a4W / a4H < 1 := by norm_num [a4W, a4H]
  have hgt : (w : ℚ) / (w : ℚ) > a4W / a4H := by rw [hone]; exact hlt
  refine ⟨by simp [imgLandscape], by simp [imgLandscape, pageDims], hlt, hgt, ?_⟩
  rw [layoutBox]
  simp only [if_pos hgt, fitToWidth]

/-- Witness for the amended C8 at the concrete square 100 by 100 image. -/
theorem square_image_layout_witness :
    imgLandscape ⟨100, 100⟩ = false ∧
    pageDims (imgLandscape ⟨100, 100⟩) = (a4W, a4H) ∧
    a4W / a4H < 1 ∧
    (100 : ℚ) / (100 : ℚ) > a4W / a4H ∧
    (layoutBox (100 : ℚ) (100 : ℚ) a4W a4H).drawW = a4W :=
  square_image_layout 100 (by norm_num)

/-! ## Dead-branch lemmas for C9 -/

lemma loopBody_eq_noAdjust (fl : Bool) (i : Nat) (d : Doc) (img : Image) :
    loopBody fl i d img = loopBodyNoAdjust fl i d img := by
  simp only [loopBody, loopBodyNoAdjust, ite_self]

lemma genLoop_eq_noAdjust (decode : String → Option Image) (fl : Bool) :
    ∀ (entries : List ImageEntry) (d : Doc) (i : Nat),
      genLoop decode fl d i entries = genLoopNoAdjust decode fl d i entries := by
  intro entries
  induction entries with
  | nil => intro d i; rfl
  | cons e rest ih =>
    intro d i
    simp only [genLoop, genLoopNoAdjust]
    cases decode e.dataUrl with
    | none => rfl
    | some img =>
      dsimp only
      rw [loopBody_eq_noAdjust, ih]

lemma genLoopProbe_never_fires (decode : String → Option Image) (fl : Bool) :
    ∀ (entries : List ImageEntry) (d : Doc) (i : Nat), 0 < i →
      genLoopProbe decode fl d false i entries =
        (genLoop decode fl d i entries).map (fun x => (x, false)) := by
  intro entries
  induction entries with
  | nil => intro d i _; rfl
  | cons e rest ih =>
    intro d i hi
    simp only [genLoop, genLoopProbe]
    cases decode e.dataUrl with
    | none => rfl
    | some img =>
      dsimp only
      have hhit : (!(decide (0 < i)) && decide (fl ≠ imgLandscape img)) = false := by
        simp [hi]
      rw [hhit]
      simp only [Bool.or_false]
      exact ih _ (i + 1) (Nat.succ_pos i)

/-- C9: the branch of generatePDF guarded by i = 0 together with
landscape !== imgLandscape is dead: generatePDF coincides with the same
function with the branch removed on every input, and the instrumented run
that records whether the guard was ever true always reports false (the
first page orientation already matches the first image, so no correction
ever happens). -/
theorem generatePDF_dead_branch (decode : String → Option Image)
    (entries : List ImageEntry) :
    generatePDF decode entries = generatePDFNoAdjust decode entries ∧
    generatePDFProbe decode entries =
      (generatePDF decode entries).map (fun d => (d, false)) := by
  constructor
  · cases entries with
    | nil => rfl
    | cons e0 rest =>
      simp only [generatePDF, generatePDFNoAdjust]
      cases decode e0.dataUrl with
      | none => rfl
      | some firstImg =>
        dsimp only
        rw [genLoop_eq_noAdjust]
  · cases entries with
    | nil => rfl
    | cons e0 rest =>
      simp only [generatePDF, generatePDFProbe]
      cases hd0 : decode e0.dataUrl with
      | none => rfl
      | some firstImg =>
        simp only [genLoop, genLoopProbe, hd0]
        have hhit : (!(decide ((0 : Nat) < 0)) &&
            decide (imgLandscape firstImg ≠ imgLandscape firstImg)) = false := by
          simp
        rw [hhit]
        simp only [Bool.or_false]
        exact genLoopProbe_never_fires decode (imgLandscape firstImg) rest _ 1 Nat.one_pos

/-- C10: removing an id that no stored entry carries changes nothing:
the images array and the rendered item list are returned as they were. -/
theorem removeImage_absent_id_noop (st : UIState) (id : String)
    (h : ∀ e ∈ st.images, e.id ≠ id) :
    removeImage st id = st := by
  have hnone : st.images.findIdx? (fun e => e.id == id) = none := by
    rw [List.findIdx?_eq_none_iff]
    intro e he
    simp [h e he]
  simp [removeImage, hnone]

/-- Witness for C10 at a concrete state holding one image. -/
theorem removeImage_absent_id_noop_witness :
    removeImage ⟨[⟨"i1", "a.jpg", "u1"⟩], ["i1"]⟩ "i2" =
      ⟨[⟨"i1", "a.jpg", "u1"⟩], ["i1"]⟩ :=
  removeImage_absent_id_noop ⟨[⟨"i1", "a.jpg", "u1"⟩], ["i1"]⟩ "i2" (by decide)

/-- Cross-check: the layout computation translated from the source
coincides with the formula transcribed from the words of spec 4.2. -/
lemma layoutBox_eq_layoutSpec (imgW imgH pageW pageH : ℚ) :
    layoutBox imgW imgH pageW pageH = layoutSpec imgW imgH pageW pageH := rfl
